import Mathlib

/-
Verification development for the thread-summarizer backend.

JavaScript strings are modelled as lists of characters (`JStr`): the inputs
of interest are ordinary text, for which JS string indexing/length coincide
with character lists. Fallible code is modelled with `Except`; the provider
network calls are modelled as explicit parameters giving the outcome of each
attempt. Mutable per-request state (rate-limit counters, the response cache)
is passed explicitly.
-/

set_option maxRecDepth 100000

namespace ThreadSummarizer

/-- JStr models a JavaScript string as a list of characters. -/
abbrev JStr := List Char

/-- jstr converts a Lean string literal into the `JStr` model. -/
def jstr (s : String) : JStr := s.toList

/-- jsIsWhitespace models the whitespace class trimmed by `String.prototype.trim`
restricted to the ASCII whitespace that occurs in the inputs of interest. -/
def jsIsWhitespace (c : Char) : Bool :=
  c = ' ' || c = '\t' || c = '\n' || c = '\r'

/-- jsTrim models `s.trim()`: drop leading and trailing whitespace. -/
def jsTrim (s : JStr) : JStr :=
  ((s.dropWhile jsIsWhitespace).reverse.dropWhile jsIsWhitespace).reverse

/-- jsToLower models `s.toLowerCase()` (ASCII case mapping). -/
def jsToLower (s : JStr) : JStr := s.map Char.toLower

/-- jsIncludes models `s.includes(pat)`: some suffix of `s` has `pat` as a prefix. -/
def jsIncludes : JStr → JStr → Bool
  | s, pat =>
    match s with
    | [] => pat.isEmpty
    | _ :: rest => pat.isPrefixOf s || jsIncludes rest pat

/-- splitLines models `s.split('\x5cn')` from `parseSummaryResponse`. -/
def splitLines : JStr → List JStr
  | [] => [[]]
  | c :: rest =>
    if c = '\n' then [] :: splitLines rest
    else
      match splitLines rest with
      | [] => [[c]]
      | l :: ls => (c :: l) :: ls

/-- numDotTail checks, after an initial digit, that the remaining digits are
followed by a dot, as in the regex `^\d+\.` used for numbered bullet lines. -/
def numDotTail : JStr → Bool
  | [] => false
  | c :: rest => if c.isDigit then numDotTail rest else c = '.'

/-- matchNumDot models `line.trim().match(/^\d+\./)` being non-null. -/
def matchNumDot : JStr → Bool
  | [] => false
  | c :: rest => c.isDigit && numDotTail rest

/-- startsWithCh models `s.startsWith(c)` for a one-character prefix. -/
def startsWithCh (s : JStr) (c : Char) : Bool :=
  match s with
  | [] => false
  | x :: _ => x = c

/-- isMarkerChar is the character class `[-*\d.]` of the leading-marker regex. -/
def isMarkerChar (c : Char) : Bool :=
  c = '-' || c = '*' || c = '.' || c.isDigit

/-- stripMarker models `line.replace(/^[-*\d.]+\s*/, '')`: if the line starts
with at least one marker character, remove the maximal run of marker
characters and the following whitespace run; otherwise leave it unchanged. -/
def stripMarker (s : JStr) : JStr :=
  if (s.takeWhile isMarkerChar).isEmpty then s
  else (s.dropWhile isMarkerChar).dropWhile jsIsWhitespace

/-- stripCurly models `s.replace(/[“”]/g, '')`: remove all curly double quotes. -/
def stripCurly (s : JStr) : JStr :=
  s.filter (fun c => !(c = '“' || c = '”'))

/-- digitsToNat models `parseInt` on a non-empty digit string. -/
def digitsToNat (ds : JStr) : Nat :=
  ds.foldl (fun n c => n * 10 + (c.toNat - 48)) 0

/-- firstNumber models `line.match(/(\d+)/)` followed by `parseInt`: the first
maximal digit run of the line as a number, or `none` when the line has no digit. -/
def firstNumber : JStr → Option Nat
  | [] => none
  | c :: rest =>
    if c.isDigit then some (digitsToNat (c :: rest.takeWhile Char.isDigit))
    else firstNumber rest

/-- SummaryResult is the structured result shape produced by the summarizer
(`keyPoints`, `quotes`, `sentiment`, `wordCount`, `timeToRead`). -/
structure SummaryResult where
  keyPoints : List JStr
  quotes : List JStr
  sentiment : JStr
  wordCount : Nat
  timeToRead : Nat
deriving DecidableEq, Repr

/-- Sect is the `currentSection` tag of the structured scan
(`''`, `'points'`, `'quotes'` in the JavaScript). -/
inductive Sect where
  | sNone
  | sPoints
  | sQuotes
deriving DecidableEq, Repr

/-- ScanState is the mutable state of the line scan in `parseSummaryResponse`. -/
structure ScanState where
  keyPoints : List JStr
  quotes : List JStr
  sentiment : JStr
  timeToRead : Nat
  currentSection : Sect
deriving DecidableEq, Repr

/-- initScan is the scan state before the `lines.forEach` loop. -/
def initScan : ScanState :=
  { keyPoints := [], quotes := [], sentiment := jstr ("neutral"),
    timeToRead := 1, currentSection := Sect.sNone }

/-- scanLine is the body of the `lines.forEach` loop of
`GeminiService.parseSummaryResponse` (src/utils/gemini.js lines 428-455). -/
def scanLine (st : ScanState) (line : JStr) : ScanState :=
  let cleanLine := jsTrim line
  let lowerLine := jsToLower cleanLine
  if jsIncludes lowerLine (jstr ("key points")) || jsIncludes lowerLine (jstr ("main points")) then
    { st with currentSection := Sect.sPoints }
  else if jsIncludes lowerLine (jstr ("quotes")) || jsIncludes lowerLine (jstr ("notable quotes")) then
    { st with currentSection := Sect.sQuotes }
  else if jsIncludes lowerLine (jstr ("sentiment")) then
    { st with sentiment :=
        if jsIncludes lowerLine (jstr ("positive")) then jstr ("positive")
        else if jsIncludes lowerLine (jstr ("negative")) then jstr ("negative")
        else jstr ("neutral") }
  else if jsIncludes lowerLine (jstr ("reading time")) then
    match firstNumber line with
    | some n => { st with timeToRead := n }
    | none => st
  else if startsWithCh cleanLine '-' || startsWithCh cleanLine '*' || matchNumDot cleanLine then
    let stripped := jsTrim (stripMarker line)
    if st.currentSection = Sect.sPoints ∧ stripped ≠ [] then
      if st.keyPoints.length < 3 then
        { st with keyPoints := st.keyPoints ++ [stripped.take 100] }
      else st
    else if st.currentSection = Sect.sQuotes ∧ stripped ≠ [] then
      if st.quotes.length < 2 then
        { st with quotes := st.quotes ++ [(stripCurly stripped).take 80] }
      else st
    else st
  else st

/-- parsedLines models `aiResponse.split('\x5cn').filter(line => line.trim())`. -/
def parsedLines (raw : JStr) : List JStr :=
  (splitLines raw).filter (fun l => !(jsTrim l).isEmpty)

/-- scanLines runs the structured scan over all non-blank lines of the response. -/
def scanLines (raw : JStr) : ScanState :=
  (parsedLines raw).foldl scanLine initScan

/-- fallbackCandidates models
`lines.filter(line => line.length > 20 && line.length < 150)`. -/
def fallbackCandidates (raw : JStr) : List JStr :=
  (parsedLines raw).filter (fun l => decide (20 < l.length) && decide (l.length < 150))

/-- fbLoop models the fallback loop of `parseSummaryResponse`:
`for (i = 0; i < Math.min(3, cleanLines.length); i++) { if (i < 2) keyPoints.push(...substring(0,100)) else if (quotes.length < 2) quotes.push(...substring(0,80)) }`. -/
def fbLoop (cleanLines : List JStr) : List JStr × List JStr :=
  (List.range (min 3 cleanLines.length)).foldl
    (fun acc i =>
      if i < 2 then (acc.1 ++ [(cleanLines.getD i []).take 100], acc.2)
      else if acc.2.length < 2 then (acc.1, acc.2 ++ [(cleanLines.getD i []).take 80])
      else acc)
    ([], [])

/-- passResult is the pair of (keyPoints, quotes) lists after both the
structured scan and, when that produced nothing at all, the fallback pass. -/
def passResult (raw : JStr) : List JStr × List JStr :=
  let st := scanLines raw
  if st.keyPoints.isEmpty && st.quotes.isEmpty then fbLoop (fallbackCandidates raw)
  else (st.keyPoints, st.quotes)

/-- parseSummaryResponse models `GeminiService.parseSummaryResponse`
(src/utils/gemini.js lines 415-476). -/
def parseSummaryResponse (raw : JStr) : SummaryResult :=
  let st := scanLines raw
  let pr := passResult raw
  { keyPoints := if pr.1.isEmpty then [jstr ("Main discussion points")] else pr.1.take 3,
    quotes := if pr.2.isEmpty then [jstr ("Key statement from thread")] else pr.2.take 2,
    sentiment := st.sentiment,
    wordCount := 0,
    timeToRead :=
      if st.timeToRead = 0 then max 1 ((parsedLines raw).length / 50)
      else st.timeToRead }

/-- isTransient models the retry guard of `GeminiService.retryOperation`:
an error message is retried only when it contains `503` or `overloaded`. -/
def isTransient (msg : JStr) : Bool :=
  jsIncludes msg (jstr ("503")) || jsIncludes msg (jstr ("overloaded"))

/-- retryGo is the loop of `GeminiService.retryOperation` (src/utils/gemini.js
lines 382-413). `op i` is the outcome of the i-th attempt of the wrapped
operation; `fuel` is the number of loop iterations still allowed. The second
component records, in order, the backoff waits `delay * 2 ^ i` performed
between attempts. In the source the non-transient branch contains a redundant
inner check for quota messages; both paths rethrow the same error, which is
modelled as the single non-transient rethrow here. -/
def retryGo (op : Nat → Except JStr α) (delay : Nat) : Nat → Nat → Except JStr α × List Nat
  | _, 0 => (Except.error [], [])
  | i, fuel + 1 =>
    match op i with
    | Except.ok v => (Except.ok v, [])
    | Except.error e =>
      if isTransient e = false then (Except.error e, [])
      else if fuel = 0 then (Except.error e, [])
      else
        let rest := retryGo op delay (i + 1) fuel
        (rest.1, delay * 2 ^ i :: rest.2)

/-- retryOperation models `GeminiService.retryOperation(operation, maxRetries, delay)`
together with the log of backoff waits it performs. -/
def retryOperation (op : Nat → Except JStr α) (maxRetries delay : Nat) :
    Except JStr α × List Nat :=
  retryGo op delay 0 maxRetries

/-- isQuotaMsg models the fallback guard `error.message.includes('429') ||
error.message.includes('quota')` of `summarizeThread` and `generateReply`. -/
def isQuotaMsg (e : JStr) : Bool :=
  jsIncludes e (jstr ("429")) || jsIncludes e (jstr ("quota"))

/-- fallbackSummary is the fixed structure returned by `summarizeThread`'s
catch block when no fallback provider rescues the request. -/
def fallbackSummary : SummaryResult :=
  { keyPoints := [jstr ("Content summary will appear here")],
    quotes := [jstr ("Notable quotes will appear here")],
    sentiment := jstr ("neutral"),
    wordCount := 0,
    timeToRead := 1 }

/-- cannedReply is the fixed string returned by `generateReply`'s catch block. -/
def cannedReply : JStr := jstr ("Thanks for sharing these insights!")

/-- summarizeThread models `GeminiService.summarizeThread` (src/utils/gemini.js
lines 21-81). `gemini` is the outcome of the retried Gemini call; `hf` is
`none` when the Hugging Face client is not configured, and otherwise the
outcome of `summarizeWithHuggingFace`. A value result means the promise
resolves; an `Except.error` result would mean an exception propagates. -/
def summarizeThread (gemini : Except JStr JStr)
    (hf : Option (Except JStr SummaryResult)) : Except JStr SummaryResult :=
  match gemini with
  | Except.ok raw => Except.ok (parseSummaryResponse raw)
  | Except.error e =>
    match hf with
    | some hfRes =>
      if isQuotaMsg e then
        match hfRes with
        | Except.ok s => Except.ok s
        | Except.error _ => Except.ok fallbackSummary
      else Except.ok fallbackSummary
    | none => Except.ok fallbackSummary

/-- generateReply models `GeminiService.generateReply` (src/utils/gemini.js
lines 83-118), with the same conventions as `summarizeThread`. -/
def generateReply (gemini : Except JStr JStr)
    (hf : Option (Except JStr JStr)) : Except JStr JStr :=
  match gemini with
  | Except.ok resp => Except.ok resp
  | Except.error e =>
    match hf with
    | some hfRes =>
      if isQuotaMsg e then
        match hfRes with
        | Except.ok r => Except.ok r
        | Except.error _ => Except.ok cannedReply
      else Except.ok cannedReply
    | none => Except.ok cannedReply

/-- JsThreadContent models the `threadContent` request field: its `text`
property may be absent (`none`) or a string. -/
structure JsThreadContent where
  text : Option JStr
deriving DecidableEq, Repr

/-- textTruthy models the JavaScript truthiness test `threadContent.text`:
false when the property is absent or the empty string. -/
def textTruthy : Option JStr → Bool
  | none => false
  | some t => !t.isEmpty

/-- invalidSummBody holds when the summarize request body has a missing
`threadContent`, a missing `text` field, or an empty-string `text`. -/
def invalidSummBody (b : Option JsThreadContent) : Prop :=
  b = none ∨ ∃ tc, b = some tc ∧ (tc.text = none ∨ tc.text = some [])

/-- RespBody models the JSON bodies emitted by the summarize route. -/
inductive RespBody where
  | rateLimited
  | badRequest
  | success (s : SummaryResult)
  | serverError (msg : JStr)
deriving DecidableEq, Repr

/-- summarizeHandler models the handler of `router.post('/summarize')`
(src/routes/api.js lines 57-76): it returns the HTTP status, the JSON body,
and whether `geminiService.summarizeThread` was invoked. `provider` is the
outcome of that call (an `Except.error` models a thrown exception, which the
route maps to a 500 response). -/
def summarizeHandler (threadContent : Option JsThreadContent)
    (provider : Except JStr SummaryResult) : Nat × RespBody × Bool :=
  match threadContent with
  | none => (400, RespBody.badRequest, false)
  | some tc =>
    if textTruthy tc.text = false then (400, RespBody.badRequest, false)
    else
      match provider with
      | Except.ok s => (200, RespBody.success s, true)
      | Except.error m => (500, RespBody.serverError m, true)

/-- CacheMap models the node-cache store for the summarize route, restricted
to entries that are still live (within the TTL): it maps the cache key —
determined by the request body, since the route part of
`req.originalUrl + JSON.stringify(req.body)` is fixed — to the stored body. -/
abbrev CacheMap := List (Option JsThreadContent × RespBody)

/-- cacheGet models `cache.get(cacheKey)`. -/
def cacheGet (c : CacheMap) (k : Option JsThreadContent) : Option RespBody :=
  match c with
  | [] => none
  | (k', v) :: rest => if k' = k then some v else cacheGet rest k

/-- cacheSet models `cache.set(cacheKey, body)`; prepending together with the
first-match lookup gives overwrite semantics. -/
def cacheSet (c : CacheMap) (k : Option JsThreadContent) (v : RespBody) : CacheMap :=
  (k, v) :: c

/-- RouteOutcome is the observable effect of one summarize request:
the response sent, the new cache, the new number of rate-limit points
consumed by the client, and whether the provider was invoked. -/
structure RouteOutcome where
  status : Nat
  body : RespBody
  fromCache : Bool
  cache : CacheMap
  consumed : Nat
  providerCalled : Bool
deriving DecidableEq, Repr

/-- processSummarize models the full middleware chain of
`router.post('/summarize', cacheMiddleware, rateLimitMiddleware(summaryRateLimiter), handler)`
(src/routes/api.js lines 23-76): a cache hit replays the stored body with
`fromCache: true` at status 200 before the rate limiter or validation run; on
a miss the wrapped `res.json` stores whatever body the rest of the chain
emits — including the 429 and 400 error bodies. `consumed` is the client's
consumed rate-limit points within the current window and `points` the quota. -/
def processSummarize (cache : CacheMap) (consumed points : Nat)
    (body : Option JsThreadContent) (provider : Except JStr SummaryResult) :
    RouteOutcome :=
  match cacheGet cache body with
  | some stored =>
    { status := 200, body := stored, fromCache := true,
      cache := cache, consumed := consumed, providerCalled := false }
  | none =>
    if consumed < points then
      let h := summarizeHandler body provider
      { status := h.1, body := h.2.1, fromCache := false,
        cache := cacheSet cache body h.2.1, consumed := consumed + 1,
        providerCalled := h.2.2 }
    else
      { status := 429, body := RespBody.rateLimited, fromCache := false,
        cache := cacheSet cache body RespBody.rateLimited, consumed := consumed,
        providerCalled := false }

/-- RLEntry is one client's rate-limit record in the simple in-memory limiter
of src/unnamed/part_000: a request count and the window's reset timestamp. -/
structure RLEntry where
  count : Nat
  resetTime : Nat
deriving DecidableEq, Repr

/-- rateLimitStep models one execution of the rate-limit middleware of
src/unnamed/part_000 (lines 10-30) for a single client: initialize the entry
if absent, reset it when the window has elapsed (`now > resetTime`), reject
with 429 when the count has reached the quota, and otherwise increment and
admit. The first component is `some 429` on rejection and `none` when the
request is passed on to the route. -/
def rateLimitStep (points window : Nat) (entry : Option RLEntry) (now : Nat) :
    Option Nat × RLEntry :=
  let e1 := match entry with
    | none => { count := 0, resetTime := now + window : RLEntry }
    | some e => e
  let e2 := if e1.resetTime < now then { count := 0, resetTime := now + window : RLEntry } else e1
  if points ≤ e2.count then (some 429, e2)
  else (none, { count := e2.count + 1, resetTime := e2.resetTime })

/-- runRate processes a sequence of request timestamps from one client through
the rate-limit middleware, returning each request's outcome and the final entry. -/
def runRate (points window : Nat) : Option RLEntry → List Nat → List (Option Nat) × Option RLEntry
  | st, [] => ([], st)
  | st, t :: ts =>
    let r := rateLimitStep points window st t
    let rest := runRate points window (some r.2) ts
    (r.1 :: rest.1, rest.2)

/-! Helper lemmas shared by several claims. -/

/-- fbLoop_closed gives the closed form of the fallback loop: the first two
qualifying lines go to key points (truncated to 100) and the third qualifying
line, when present, goes to quotes (truncated to 80). -/
theorem fbLoop_closed : ∀ cl : List JStr,
    fbLoop cl = ((cl.take 2).map (fun l => l.take 100),
                 ((cl.drop 2).take 1).map (fun l => l.take 80))
  | [] => rfl
  | [_] => rfl
  | [_, _] => rfl
  | a :: b :: c :: rest => by
    simp only [fbLoop, List.length_cons]
    rw [show min 3 (rest.length + 1 + 1 + 1) = 3 by omega]
    rfl

/-- takeCap_ne_nil notes that the placeholder-or-truncate step never yields
an empty list. -/
theorem takeCap_ne_nil (l : List JStr) (d : JStr) (n : Nat) :
    (if l.isEmpty then [d] else l.take (n + 1)) ≠ [] := by
  cases l <;> simp

/-- C3: for every rawText, parseSummaryResponse returns non-empty keyPoints
and quotes; any list still empty after the structured scan and the fallback
pass is replaced by the fixed placeholder string. -/
theorem parse_never_empty (raw : JStr) :
    (parseSummaryResponse raw).keyPoints ≠ [] ∧
    (parseSummaryResponse raw).quotes ≠ [] ∧
    ((passResult raw).1 = [] →
      (parseSummaryResponse raw).keyPoints = [jstr ("Main discussion points")]) ∧
    ((passResult raw).2 = [] →
      (parseSummaryResponse raw).quotes = [jstr ("Key statement from thread")]) := by
  refine ⟨?_, ?_, ?_, ?_⟩
  · exact takeCap_ne_nil (passResult raw).1 _ 2
  · exact takeCap_ne_nil (passResult raw).2 _ 1
  · intro h
    simp [parseSummaryResponse, h]
  · intro h
    simp [parseSummaryResponse, h]

/-- C3 witness: on the empty response both passes produce nothing, so both
placeholders appear. -/
theorem parse_never_empty_witness :
    (parseSummaryResponse []).keyPoints = [jstr ("Main discussion points")] ∧
    (parseSummaryResponse []).quotes = [jstr ("Key statement from thread")] :=
  ⟨(parse_never_empty []).2.2.1 (by decide), (parse_never_empty []).2.2.2 (by decide)⟩

/-- c2FailInput is a response in exactly the format the summarize prompt
demands: a Key Points header with three numbered lines and a Quotes header
with two lines labeled Quote 1 and Quote 2. -/
def c2FailInput : JStr :=
  jstr ("Key Points:\n1. The team slipped the deadline by two weeks\n2. Budget concerns were raised by leadership\n3. A new testing process will start next month\nQuotes:\nQuote 1: We simply cannot ship this quarter\nQuote 2: Quality beats speed every time")

/-- C2: evaluating the parser on a well-formed response shows the bug: the
three numbered points are extracted, but the two lines labeled Quote 1 and
Quote 2 match no bullet pattern and are dropped, so quotes degrades to the
placeholder instead of the two labeled quotes. -/
theorem parse_drops_labeled_quotes :
    (parseSummaryResponse c2FailInput).keyPoints =
      [jstr ("The team slipped the deadline by two weeks"),
       jstr ("Budget concerns were raised by leadership"),
       jstr ("A new testing process will start next month")] ∧
    (parseSummaryResponse c2FailInput).quotes = [jstr ("Key statement from thread")] := by
  decide

/-- c5FailInput has three plain lines, each between 20 and 150 characters,
with no section headers and no bullet markers, so only the fallback pass runs. -/
def c5FailInput : JStr :=
  jstr ("The plan moved ahead smoothly\nEveryone agreed on the approach\nCosts remained within the budget")

/-- C5 counterexample: on three qualifying lines the structured scan yields
nothing, and the fallback assigns only the first two lines to keyPoints and
the third to quotes — not the first three to keyPoints as claimed. -/
theorem fallback_split_counterexample :
    (scanLines c5FailInput).keyPoints = [] ∧
    (scanLines c5FailInput).quotes = [] ∧
    (parseSummaryResponse c5FailInput).keyPoints =
      [jstr ("The plan moved ahead smoothly"), jstr ("Everyone agreed on the approach")] ∧
    (parseSummaryResponse c5FailInput).quotes = [jstr ("Costs remained within the budget")] ∧
    (parseSummaryResponse c5FailInput).keyPoints ≠
      [jstr ("The plan moved ahead smoothly"), jstr ("Everyone agreed on the approach"),
       jstr ("Costs remained within the budget")] := by
  decide

/-- C5 amended: when the structured scan yields both lists empty, the fallback
pass takes the lines whose length is strictly between 20 and 150 in order, and
assigns the first two (truncated to 100) to keyPoints and the third, if any,
(truncated to 80) to quotes; later qualifying lines are ignored. -/
theorem fallback_split (raw : JStr)
    (h1 : (scanLines raw).keyPoints = []) (h2 : (scanLines raw).quotes = []) :
    passResult raw =
      (((fallbackCandidates raw).take 2).map (fun l => l.take 100),
       (((fallbackCandidates raw).drop 2).take 1).map (fun l => l.take 80)) := by
  simp [passResult, h1, h2, fbLoop_closed]

/-- c5WitnessInput has four qualifying lines; the fourth is ignored entirely. -/
def c5WitnessInput : JStr :=
  jstr ("The plan moved ahead smoothly\nEveryone agreed on the approach\nCosts remained within the budget\nAnother remark that is long enough")

/-- C5 witness: the amended fallback behaviour at a concrete four-line input. -/
theorem fallback_split_witness :
    passResult c5WitnessInput =
      (((fallbackCandidates c5WitnessInput).take 2).map (fun l => l.take 100),
       (((fallbackCandidates c5WitnessInput).drop 2).take 1).map (fun l => l.take 80)) :=
  fallback_split c5WitnessInput (by decide) (by decide)

/-- c10FailInput consists of 100 reading-time marker lines containing no
integer at all. -/
def c10FailInput : JStr :=
  List.intercalate (jstr ("\n")) (List.replicate 100 (jstr ("reading time")))

/-- C10 counterexample: when a reading-time line contains no integer the code
keeps the initial value 1 rather than falling back to
max(1, floor(lineCount / 50)), which here equals 2. -/
theorem timeToRead_no_integer_counterexample :
    (parseSummaryResponse c10FailInput).timeToRead = 1 ∧
    (parsedLines c10FailInput).length = 100 ∧
    (parseSummaryResponse c10FailInput).timeToRead ≠
      max 1 ((parsedLines c10FailInput).length / 50) := by
  decide

/-- C10 amended: for every rawText the parsed result has wordCount exactly 0
and timeToRead at least 1; when the reading-time scan extracted the integer 0,
timeToRead falls back to max(1, floor(lineCount / 50)); when no integer is
ever extracted the initial value 1 is kept. -/
theorem wordCount_timeToRead (raw : JStr) :
    (parseSummaryResponse raw).wordCount = 0 ∧
    1 ≤ (parseSummaryResponse raw).timeToRead ∧
    ((scanLines raw).timeToRead = 0 →
      (parseSummaryResponse raw).timeToRead = max 1 ((parsedLines raw).length / 50)) := by
  refine ⟨rfl, ?_, ?_⟩
  · simp only [parseSummaryResponse]
    split
    · exact le_max_left 1 _
    · omega
  · intro h
    simp [parseSummaryResponse, h]

/-- c10ZeroInput contains a reading-time line whose first integer is 0. -/
def c10ZeroInput : JStr := jstr ("reading time: 0")

/-- C10 witness: the zero-extraction fallback at a concrete input. -/
theorem wordCount_timeToRead_witness :
    (parseSummaryResponse c10ZeroInput).timeToRead =
      max 1 ((parsedLines c10ZeroInput).length / 50) :=
  (wordCount_timeToRead c10ZeroInput).2.2 (by decide)

/-- capsOK states that every key point is at most 100 characters and every
quote at most 80 characters. -/
def capsOK (kp qs : List JStr) : Prop :=
  (∀ p ∈ kp, p.length ≤ 100) ∧ (∀ q ∈ qs, q.length ≤ 80)

set_option maxHeartbeats 1000000 in
/-- scanLine_caps: one scan step preserves the character caps, since every
push truncates with take 100 or take 80. -/
theorem scanLine_caps (st : ScanState) (line : JStr)
    (h : capsOK st.keyPoints st.quotes) :
    capsOK (scanLine st line).keyPoints (scanLine st line).quotes := by
  obtain ⟨h1, h2⟩ := h
  constructor <;>
  · intro x hx
    simp only [scanLine] at hx
    repeat' split at hx
    all_goals try dsimp only at hx
    all_goals
      first
        | exact h1 x hx
        | exact h2 x hx
        | (rcases List.mem_append.mp hx with hx | hx
           · first
               | exact h1 x hx
               | exact h2 x hx
           · rw [List.mem_singleton.mp hx]
             exact List.length_take_le _ _)

/-- foldl_scan_caps extends the cap preservation to the whole scan. -/
theorem foldl_scan_caps : ∀ (l : List JStr) (st : ScanState),
    capsOK st.keyPoints st.quotes →
    capsOK (List.foldl scanLine st l).keyPoints (List.foldl scanLine st l).quotes
  | [], _, h => h
  | a :: l, st, h => foldl_scan_caps l (scanLine st a) (scanLine_caps st a h)

/-- passResult_caps: both passes respect the character caps. -/
theorem passResult_caps (raw : JStr) :
    capsOK (passResult raw).1 (passResult raw).2 := by
  simp only [passResult]
  split
  · rw [fbLoop_closed]
    constructor
    · intro p hp
      simp only [List.mem_map] at hp
      obtain ⟨l, _, rfl⟩ := hp
      exact List.length_take_le _ _
    · intro q hq
      simp only [List.mem_map] at hq
      obtain ⟨l, _, rfl⟩ := hq
      exact List.length_take_le _ _
  · exact foldl_scan_caps (parsedLines raw) initScan
      ⟨fun _ hp => absurd hp (List.not_mem_nil _), fun _ hq => absurd hq (List.not_mem_nil _)⟩

/-- parse_fields exposes the final assembly of parseSummaryResponse. -/
theorem parse_fields (raw : JStr) :
    (parseSummaryResponse raw).keyPoints =
      (if (passResult raw).1.isEmpty then [jstr ("Main discussion points")]
       else (passResult raw).1.take 3) ∧
    (parseSummaryResponse raw).quotes =
      (if (passResult raw).2.isEmpty then [jstr ("Key statement from thread")]
       else (passResult raw).2.take 2) :=
  ⟨rfl, rfl⟩

/-- splitLines_no_newline: splitting a newline-free string yields one line. -/
theorem splitLines_no_newline : ∀ s : JStr, '\n' ∉ s → splitLines s = [s]
  | [], _ => rfl
  | c :: rest, h => by
    have hc : ¬c = '\n' := fun e => h (List.mem_cons.mpr (Or.inl e.symm))
    have hr : '\n' ∉ rest := fun m => h (List.mem_cons.mpr (Or.inr m))
    simp only [splitLines, if_neg hc, splitLines_no_newline rest hr]

/-- scanLine_init_empty: from the initial state, a single line can change the
section, the sentiment, or the reading time, but never emits a point or quote. -/
theorem scanLine_init_empty (line : JStr) :
    (scanLine initScan line).keyPoints = [] ∧ (scanLine initScan line).quotes = [] := by
  unfold scanLine
  repeat' split <;> simp_all [initScan]

/-- parsedLines_single: a newline-free, non-blank string is a single line. -/
theorem parsedLines_single (s : JStr) (hn : '\n' ∉ s) (ht : jsTrim s ≠ []) :
    parsedLines s = [s] := by
  unfold parsedLines
  rw [splitLines_no_newline s hn]
  simp [ht]

/-- fallbackCandidates_single: a single 100-character line qualifies for the
fallback window. -/
theorem fallbackCandidates_single (s : JStr) (h100 : s.length = 100)
    (hn : '\n' ∉ s) (ht : jsTrim s ≠ []) : fallbackCandidates s = [s] := by
  unfold fallbackCandidates
  rw [parsedLines_single s hn ht]
  simp [h100]

/-- C6: every parsed key point is at most 100 characters and every parsed
quote at most 80 (truncation is unconditional); and truncation is idempotent:
feeding a line already truncated to the 100-character cap back into the
parser returns exactly that line. -/
theorem truncation_caps_idempotent :
    (∀ raw : JStr,
      (∀ p ∈ (parseSummaryResponse raw).keyPoints, p.length ≤ 100) ∧
      (∀ q ∈ (parseSummaryResponse raw).quotes, q.length ≤ 80)) ∧
    (∀ s : JStr, s.length = 100 → '\n' ∉ s → jsTrim s ≠ [] →
      (parseSummaryResponse s).keyPoints = [s]) := by
  constructor
  · intro raw
    have hc := passResult_caps raw
    constructor
    · intro p hp
      rw [(parse_fields raw).1] at hp
      split at hp
      · rw [List.mem_singleton.mp hp]
        decide
      · exact hc.1 p (List.take_subset 3 _ hp)
    · intro q hq
      rw [(parse_fields raw).2] at hq
      split at hq
      · rw [List.mem_singleton.mp hq]
        decide
      · exact hc.2 q (List.take_subset 2 _ hq)
  · intro s h100 hn ht
    have hsc : (scanLines s).keyPoints = [] ∧ (scanLines s).quotes = [] := by
      unfold scanLines
      rw [parsedLines_single s hn ht]
      exact scanLine_init_empty s
    have htake : s.take 100 = s := List.take_of_length_le (le_of_eq h100)
    have hpr : passResult s = ([s], []) := by
      simp [passResult, hsc.1, hsc.2, fbLoop_closed,
        fallbackCandidates_single s h100 hn ht, htake]
    rw [(parse_fields s).1, hpr]
    simp

/-- C6 witness: the cap at a placeholder entry, and idempotence at a concrete
100-character line. -/
theorem truncation_caps_idempotent_witness :
    (jstr ("Main discussion points")).length ≤ 100 ∧
    (parseSummaryResponse (List.replicate 100 'a')).keyPoints = [List.replicate 100 'a'] :=
  ⟨(truncation_caps_idempotent.1 []).1 (jstr ("Main discussion points")) (by decide),
   truncation_caps_idempotent.2 (List.replicate 100 'a') (by decide) (by decide) (by decide)⟩

/-- retryGo_spec: structural facts about the retry loop. Starting at attempt
`i` with `fuel` iterations allowed, the wait log has fewer entries than the
fuel (when there is any fuel), the k-th wait is `delay * 2 ^ (i + k)`, and a
wait at position k happened only because attempt `i + k` failed with a
transient error message. -/
theorem retryGo_spec (op : Nat → Except JStr JStr) (d : Nat) :
    ∀ (fuel i : Nat),
      ((retryGo op d i fuel).2.length + 1 ≤ fuel ∨ fuel = 0) ∧
      (retryGo op d i fuel).2 =
        (List.range (retryGo op d i fuel).2.length).map (fun k => d * 2 ^ (i + k)) ∧
      (∀ k < (retryGo op d i fuel).2.length,
        ∃ msg, op (i + k) = Except.error msg ∧ isTransient msg = true)
  | 0, _ => ⟨Or.inr rfl, rfl, fun k hk => absurd hk (by simp [retryGo])⟩
  | fuel + 1, i => by
    have base : (retryGo op d i (fuel + 1)).2 = [] →
        ((retryGo op d i (fuel + 1)).2.length + 1 ≤ fuel + 1 ∨ fuel + 1 = 0) ∧
        (retryGo op d i (fuel + 1)).2 =
          (List.range (retryGo op d i (fuel + 1)).2.length).map (fun k => d * 2 ^ (i + k)) ∧
        (∀ k < (retryGo op d i (fuel + 1)).2.length,
          ∃ msg, op (i + k) = Except.error msg ∧ isTransient msg = true) := by
      intro hws
      rw [hws]
      exact ⟨Or.inl (by simp), rfl, fun k hk => absurd hk (by simp)⟩
    rcases hop : op i with e | v
    case ok => exact base (by simp [retryGo, hop])
    · rcases htr : isTransient e with _ | _
      · exact base (by simp [retryGo, hop, htr])
      · by_cases hf : fuel = 0
        · exact base (by simp [retryGo, hop, htr, hf])
        · obtain ⟨ih1, ih2, ih3⟩ := retryGo_spec op d fuel (i + 1)
          have hstep : retryGo op d i (fuel + 1) =
              ((retryGo op d (i + 1) fuel).1, d * 2 ^ i :: (retryGo op d (i + 1) fuel).2) := by
            simp [retryGo, hop, htr, hf]
          rw [hstep]
          refine ⟨Or.inl ?_, ?_, ?_⟩
          · simp only [List.length_cons]
            rcases ih1 with h | h
            · omega
            · exact absurd h hf
          · simp only [List.length_cons, List.range_succ_eq_map, List.map_cons,
              List.map_map, List.cons.injEq]
            refine ⟨by simp, ?_⟩
            conv_lhs => rw [ih2]
            apply List.map_congr_left
            intro a _
            simp only [Function.comp_apply]
            congr 1
            congr 1
            omega
          · intro k hk
            rcases k with _ | k
            · exact ⟨e, by simpa using hop, htr⟩
            · obtain ⟨msg, hm, ht2⟩ := ih3 k (by simpa using hk)
              refine ⟨msg, ?_, ht2⟩
              rw [show i + (k + 1) = i + 1 + k by omega]
              exact hm

/-- C4: the retry wrapper performs at most 3 attempts (at most 2 waits), the
k-th wait is delay * 2 ^ k, every retry was caused by a transient error
(message containing 503 or overloaded), and a non-transient first error —
including quota and too-many-requests messages — is rethrown immediately with
no wait. -/
theorem retry_policy (op : Nat → Except JStr JStr) (d : Nat) :
    (retryOperation op 3 d).2.length ≤ 2 ∧
    (retryOperation op 3 d).2 =
      (List.range (retryOperation op 3 d).2.length).map (fun k => d * 2 ^ k) ∧
    (∀ k < (retryOperation op 3 d).2.length,
      ∃ msg, op k = Except.error msg ∧ isTransient msg = true) ∧
    (∀ e, op 0 = Except.error e → isTransient e = false →
      retryOperation op 3 d = (Except.error e, [])) := by
  obtain ⟨h1, h2, h3⟩ := retryGo_spec op d 3 0
  refine ⟨?_, ?_, ?_, ?_⟩
  · rcases h1 with h | h
    · simpa [retryOperation] using Nat.le_of_succ_le_succ h
    · exact absurd h (by omega)
  · simpa [retryOperation] using h2
  · intro k hk
    simpa [retryOperation] using h3 k hk
  · intro e he htr
    simp [retryOperation, retryGo, he, htr]

/-- quotaOp is an operation whose every attempt fails with a quota message. -/
def quotaOp : Nat → Except JStr JStr :=
  fun _ => Except.error (jstr ("429 Too Many Requests"))

/-- C4 witness: a quota-class error message is rethrown immediately, with no
retry and no backoff wait. -/
theorem retry_policy_witness :
    retryOperation quotaOp 3 1000 = (Except.error (jstr ("429 Too Many Requests")), []) :=
  (retry_policy quotaOp 1000).2.2.2 (jstr ("429 Too Many Requests")) rfl (by decide)

/-- retryGo_all_fail: when every attempt fails, the retry loop surfaces an error. -/
theorem retryGo_all_fail (op : Nat → Except JStr JStr) (d : Nat)
    (h : ∀ j r, op j ≠ Except.ok r) :
    ∀ (fuel i : Nat), ∃ e, (retryGo op d i fuel).1 = Except.error e
  | 0, _ => ⟨[], rfl⟩
  | fuel + 1, i => by
    rcases hop : op i with e | v
    case ok => exact absurd hop (h i v)
    · rcases htr : isTransient e with _ | _
      · exact ⟨e, by simp [retryGo, hop, htr]⟩
      · by_cases hf : fuel = 0
        · exact ⟨e, by simp [retryGo, hop, htr, hf]⟩
        · obtain ⟨e', he'⟩ := retryGo_all_fail op d h fuel (i + 1)
          exact ⟨e', by simp [retryGo, hop, htr, hf, he']⟩

/-- C1: when every Gemini attempt raises an error and the Hugging Face
fallback is absent or also fails, summarizeThread still resolves with a
SummaryResult and generateReply still resolves with a non-empty string —
neither propagates an exception. -/
theorem all_fail_safe (op : Nat → Except JStr JStr)
    (hfS : Option (Except JStr SummaryResult)) (hfR : Option (Except JStr JStr))
    (hop : ∀ j r, op j ≠ Except.ok r)
    (hS : ∀ s, hfS ≠ some (Except.ok s))
    (hR : ∀ r, hfR ≠ some (Except.ok r)) :
    (∃ res, summarizeThread (retryOperation op 3 1000).1 hfS = Except.ok res) ∧
    (∃ rep, generateReply (retryOperation op 3 1000).1 hfR = Except.ok rep ∧ rep ≠ []) := by
  obtain ⟨e, he⟩ := retryGo_all_fail op 1000 hop 3 0
  have he' : (retryOperation op 3 1000).1 = Except.error e := he
  rw [he']
  constructor
  · rcases hfS with _ | hs
    · exact ⟨fallbackSummary, rfl⟩
    · rcases hs with e' | s
      · refine ⟨fallbackSummary, ?_⟩
        simp only [summarizeThread]
        split <;> rfl
      · exact absurd rfl (hS s)
  · rcases hfR with _ | hr
    · exact ⟨cannedReply, rfl, by decide⟩
    · rcases hr with e' | r
      · refine ⟨cannedReply, ?_, by decide⟩
        simp only [generateReply]
        split <;> rfl
      · exact absurd rfl (hR r)

/-- C1 witness: a concrete all-fail scenery — the Gemini call always raises,
the summarize fallback client raises, the reply fallback client is absent. -/
theorem all_fail_safe_witness :
    (∃ res, summarizeThread
        (retryOperation (fun _ => Except.error (jstr ("network down"))) 3 1000).1
        (some (Except.error (jstr ("hf down")))) = Except.ok res) ∧
    (∃ rep, generateReply
        (retryOperation (fun _ => Except.error (jstr ("network down"))) 3 1000).1
        none = Except.ok rep ∧ rep ≠ []) :=
  all_fail_safe (fun _ => Except.error (jstr ("network down")))
    (some (Except.error (jstr ("hf down")))) none
    (fun _ _ h => Except.noConfusion h)
    (fun _ h => by simp at h)
    (fun _ h => by simp at h)

/-- runRate_append: processing a concatenation of request sequences chains
the state through the first sequence. -/
theorem runRate_append (points window : Nat) :
    ∀ (l1 l2 : List Nat) (st : Option RLEntry),
      runRate points window st (l1 ++ l2) =
        ((runRate points window st l1).1 ++
           (runRate points window (runRate points window st l1).2 l2).1,
         (runRate points window (runRate points window st l1).2 l2).2)
  | [], l2, st => by simp [runRate]
  | t :: l1, l2, st => by
    have ih := runRate_append points window l1 l2 (some (rateLimitStep points window st t).2)
    simp only [List.cons_append, runRate]
    rw [show l1.append l2 = l1 ++ l2 from rfl, ih]

/-- runRate_admit: from a count `c` within the current window, a sequence of
requests all timestamped inside the window is fully admitted as long as it
does not exceed the quota, incrementing the count by its length. -/
theorem runRate_admit (points window R : Nat) :
    ∀ (ts : List Nat) (c : Nat), (∀ t ∈ ts, t ≤ R) → c + ts.length ≤ points →
      runRate points window (some ⟨c, R⟩) ts =
        (List.replicate ts.length none, some ⟨c + ts.length, R⟩)
  | [], c, _, _ => by simp [runRate]
  | t :: ts, c, h1, h2 => by
    have ht : t ≤ R := h1 t (List.mem_cons_self t ts)
    simp only [List.length_cons] at h2
    have hstep : rateLimitStep points window (some ⟨c, R⟩) t = (none, ⟨c + 1, R⟩) := by
      simp [rateLimitStep, show ¬R < t by omega, show ¬points ≤ c by omega]
    have hrec := runRate_admit points window R ts (c + 1)
      (fun t' ht' => h1 t' (List.mem_cons_of_mem _ ht')) (by omega)
    simp only [runRate, hstep, hrec, List.length_cons, List.replicate_succ]
    rw [show c + (ts.length + 1) = c + 1 + ts.length by omega]

/-- C7: with quota N per window, the first request opens the window, the next
N-1 requests inside the window are admitted, the (N+1)-th request inside the
window is rejected with 429, and a request after the window's reset time has
elapsed is admitted again. -/
theorem rate_limit_window (N W t0 : Nat) (ts : List Nat) (tR tNew : Nat)
    (hN : 1 ≤ N) (hlen : ts.length = N - 1)
    (hts : ∀ t ∈ ts, t ≤ t0 + W) (hR : tR ≤ t0 + W) (hNew : t0 + W < tNew) :
    (runRate N W none (t0 :: (ts ++ [tR, tNew]))).1 =
      List.replicate N none ++ [some 429, none] := by
  have hstep0 : rateLimitStep N W none t0 = (none, ⟨1, t0 + W⟩) := by
    simp [rateLimitStep, show ¬t0 + W < t0 by omega, show ¬N ≤ 0 by omega]
  have hmid := runRate_admit N W (t0 + W) ts 1 hts (by omega)
  have hRstep : rateLimitStep N W (some ⟨1 + ts.length, t0 + W⟩) tR =
      (some 429, ⟨1 + ts.length, t0 + W⟩) := by
    simp [rateLimitStep, show ¬t0 + W < tR by omega, show N ≤ 1 + ts.length by omega]
  have hNewStep : rateLimitStep N W (some ⟨1 + ts.length, t0 + W⟩) tNew =
      (none, ⟨1, tNew + W⟩) := by
    simp [rateLimitStep, hNew, show ¬N ≤ 0 by omega]
  simp only [runRate, hstep0]
  rw [runRate_append N W ts [tR, tNew] (some ⟨1, t0 + W⟩), hmid]
  simp only [runRate, hRstep, hNewStep]
  rw [show N = ts.length + 1 by omega, List.replicate_succ]
  simp

/-- C7 witness: quota 2 per a 10-tick window — two admissions, a third
request at tick 5 rejected with 429, and an admission again at tick 11. -/
theorem rate_limit_window_witness :
    (runRate 2 10 none (0 :: ([3] ++ [5, 11]))).1 =
      List.replicate 2 none ++ [some 429, none] :=
  rate_limit_window 2 10 0 [3] 5 11 (by decide) (by decide) (by decide)
    (by decide) (by decide)

/-- summarizeHandler_invalid: the summarize handler rejects a missing
threadContent, a missing text field, or an empty text with a 400 body and
never reaches the provider call. -/
theorem summarizeHandler_invalid (b : Option JsThreadContent)
    (provider : Except JStr SummaryResult) (h : invalidSummBody b) :
    summarizeHandler b provider = (400, RespBody.badRequest, false) := by
  rcases h with rfl | ⟨tc, rfl, h⟩
  · rfl
  · rcases h with h | h <;> simp [summarizeHandler, textTruthy, h]

/-- C8: a summarize request whose body is missing threadContent, missing the
text field, or carries an empty text string is answered 400 and the provider
is not called, whatever the provider outcome would have been. -/
theorem summarize_validation (b : Option JsThreadContent)
    (provider : Except JStr SummaryResult) (h : invalidSummBody b) :
    summarizeHandler b provider = (400, RespBody.badRequest, false) :=
  summarizeHandler_invalid b provider h

/-- C8 witness: empty text with a provider that would throw — still a plain
400 with no provider call. -/
theorem summarize_validation_witness :
    summarizeHandler (some { text := some [] }) (Except.error (jstr ("boom"))) =
      (400, RespBody.badRequest, false) :=
  summarize_validation (some { text := some [] }) (Except.error (jstr ("boom")))
    (Or.inr ⟨{ text := some [] }, rfl, Or.inr rfl⟩)

/-- cacheGet_set: a freshly stored key is found by lookup. -/
theorem cacheGet_set (c : CacheMap) (k : Option JsThreadContent) (v : RespBody) :
    cacheGet (cacheSet c k v) k = some v := by
  simp [cacheGet, cacheSet]

/-- C9: the cache middleware runs before the rate limiter and before
validation. A cached key is replayed with fromCache true at status 200,
without consuming rate-limit quota and without invoking validation or the
provider; on a miss, the emitted body is stored even when it is the 429
rate-limit body or the 400 validation body. -/
theorem cache_first_semantics (cache : CacheMap) (consumed points : Nat)
    (body : Option JsThreadContent) (provider : Except JStr SummaryResult) :
    (∀ stored, cacheGet cache body = some stored →
      processSummarize cache consumed points body provider =
        { status := 200, body := stored, fromCache := true,
          cache := cache, consumed := consumed, providerCalled := false }) ∧
    (cacheGet cache body = none → points ≤ consumed →
      (processSummarize cache consumed points body provider).status = 429 ∧
      cacheGet (processSummarize cache consumed points body provider).cache body =
        some RespBody.rateLimited ∧
      (processSummarize cache consumed points body provider).providerCalled = false ∧
      (processSummarize cache consumed points body provider).consumed = consumed) ∧
    (cacheGet cache body = none → consumed < points → invalidSummBody body →
      (processSummarize cache consumed points body provider).status = 400 ∧
      cacheGet (processSummarize cache consumed points body provider).cache body =
        some RespBody.badRequest ∧
      (processSummarize cache consumed points body provider).providerCalled = false) := by
  refine ⟨?_, ?_, ?_⟩
  · intro stored hhit
    simp [processSummarize, hhit]
  · intro hmiss hfull
    simp [processSummarize, hmiss, show ¬consumed < points by omega, cacheGet_set]
  · intro hmiss hok hbad
    have hh := summarizeHandler_invalid body provider hbad
    simp [processSummarize, hmiss, hok, hh, cacheGet_set]

/-- C9 witness: a previously cached 429 body is replayed as a 200 response
flagged fromCache, with the quota untouched and the provider never called. -/
theorem cache_first_semantics_witness :
    processSummarize [(none, RespBody.rateLimited)] 5 10 none (Except.error (jstr ("boom"))) =
      { status := 200, body := RespBody.rateLimited, fromCache := true,
        cache := [(none, RespBody.rateLimited)], consumed := 5, providerCalled := false } :=
  (cache_first_semantics [(none, RespBody.rateLimited)] 5 10 none
    (Except.error (jstr ("boom")))).1 RespBody.rateLimited (by decide)

end ThreadSummarizer
